import Mathlib

/-!
Verification development for the NEXRAD spillover utility module
(`nexrad_utils.py`).  The module locates NEXRAD Level-II radar volume
files in an object store, opens them through an external radar library,
extracts a fixed-azimuth composite range profile per volume and stacks
the profiles into a (time, range) table.

The shallow embedding below models:
  * values of radar fields as `Option ℚ` (masked / NaN entries are `none`);
  * a radar volume as the data the external library hands back
    (`rhiData`: per-field, per-azimuth ray matrix, possibly failing,
    plus the `ranges` axis);
  * the object store as a list of keys, with glob-by-trailing-star;
  * timestamps as a record of calendar fields, parsed strictly from the
    station-specific filename template (station, then %Y%m%d_%H%M%S_V06);
  * the two time-series builders as explicit loops returning
    `Except String Dataset`, where `.error` stands for a raised
    exception.
-/

deriving instance DecidableEq for Except

namespace Nexrad

/-! ### Composite extraction (`get_composite_field`) -/

/-- The saturation mask written in the source as
`ray[np.logical_or(ray > 1000., ray < -1000.)] = np.nan`:
a value strictly greater than 1000 or strictly less than -1000
becomes missing. -/
def satMask (v : ℚ) : Option ℚ :=
  if 1000 < v ∨ v < -1000 then none else some v

/-- Mask one ray: already-missing entries stay missing, present entries
go through `satMask`. -/
def maskRow (row : List (Option ℚ)) : List (Option ℚ) :=
  row.map (fun ov => ov.bind satMask)

/-- Binary maximum that ignores missing values, as `np.nanmax` does. -/
def maxOpt (a b : Option ℚ) : Option ℚ :=
  match a, b with
  | none, b => b
  | some x, none => some x
  | some x, some y => some (max x y)

/-- Maximum of a list of possibly-missing values; `none` when every
value is missing (`np.nanmax` of an all-NaN slice). -/
def listNanMax (l : List (Option ℚ)) : Option ℚ :=
  l.foldr maxOpt none

/-- Entry of a ray at range bin `j` (missing when out of bounds). -/
def mEntry (row : List (Option ℚ)) (j : Nat) : Option ℚ :=
  row.getD j none

/-- Column `j` of the ray matrix. -/
def colVals (m : List (List (Option ℚ))) (j : Nat) : List (Option ℚ) :=
  m.map (fun row => mEntry row j)

/-- `np.nanmax(ray, axis=0)`: reduce across the ray dimension,
one scalar per range bin.  Fails (`none`) on an empty ray matrix,
as numpy raises on a zero-size reduction. -/
def nanmaxAx0 (m : List (List (Option ℚ))) : Option (List (Option ℚ)) :=
  match m with
  | [] => none
  | r0 :: _ => some ((List.range r0.length).map (fun j => listNanMax (colVals m j)))

/-- A decoded radar volume, as seen through the external library:
`rhiData f az` is the ray/range matrix the display capability returns
for field name `f` at (nearest) azimuth `az` (`none` when the lookup
raises, e.g. the field is absent), and `ranges` is the range axis
`d.ranges`. -/
structure Radar where
  rhiData : String → ℚ → Option (List (List (Option ℚ)))
  ranges : List ℚ

/-- `get_composite_field(radar, field, azimuth)`.  Note the source
passes the literal string "reflectivity" to
`_get_azimuth_rhi_data_x_y_z`, not its `field` argument; the masking
uses strict comparisons with ±1000. -/
def get_composite_field (radar : Radar) (field : String) (azimuth : ℚ) :
    Option (List (Option ℚ) × List ℚ) :=
  match radar.rhiData "reflectivity" azimuth with
  | none => none
  | some ray =>
    match nanmaxAx0 (ray.map maskRow) with
    | none => none
    | some raycomp => some (raycomp, radar.ranges)

/-! ### Object-store listing (`get_s3_list_by_str`, `get_s3_list`) -/

/-- Glob matching as used here: every query is `stem ++ "*"`, a single
trailing wildcard; `*` does not cross a `/` (s3fs glob semantics). -/
def globMatch (pat key : String) : Bool :=
  if pat.toList.getLast? = some '*' then
    pat.toList.dropLast.isPrefixOf key.toList &&
      !((key.toList.drop pat.toList.dropLast.length).contains '/')
  else pat.toList == key.toList

/-- `s3conn.glob(pat)` against a modelled store of keys. -/
def s3Glob (store : List String) (pat : String) : List String :=
  store.filter (fun k => globMatch pat k)

/-- `get_s3_list_by_str(year, month, day, hhmm, radar_id, bucket)`:
builds the partition query string and globs it with a trailing `*`.
Returns `(key_list, bucket_query)` as the source does. -/
def get_s3_list_by_str (store : List String) (year month day : String)
    (hhmm : Option String) (radar_id : String) (bucket : String) :
    List String × String :=
  let q0 := bucket ++ "/" ++ year ++ "/" ++ month ++ "/" ++ day ++ "/" ++
    radar_id ++ "/" ++ radar_id ++ year ++ month ++ day
  let q := match hhmm with
    | some h => q0 ++ "_" ++ h
    | none => q0
  (s3Glob store (q ++ "*"), q)

/-! ### Calendar formatting for the ranged listing -/

/-- Calendar timestamp fields. -/
structure DT where
  y : Nat
  m : Nat
  d : Nat
  h : Nat
  mi : Nat
  sec : Nat
deriving DecidableEq, Repr

/-- Placeholder timestamp used only as a `getD` default. -/
def dtDummy : DT := ⟨1970, 1, 1, 0, 0, 0⟩

/-- Civil date from a day count since 1970-01-01 (proleptic Gregorian,
the standard era/year-of-era algorithm). -/
def civilFromDays (z : Nat) : Nat × Nat × Nat :=
  let zz := z + 719468
  let era := zz / 146097
  let doe := zz % 146097
  let yoe := (doe - doe / 1460 + doe / 36524 - doe / 146096) / 365
  let y := yoe + era * 400
  let doy := doe - (365 * yoe + yoe / 4 - yoe / 100)
  let mp := (5 * doy + 2) / 153
  let d := doy - (153 * mp + 2) / 5 + 1
  let m := if mp < 10 then mp + 3 else mp - 9
  (if m ≤ 2 then y + 1 else y, m, d)

/-- Timestamp (seconds since the epoch, as a `pd.Timestamp`) to
calendar fields. -/
def secondsToDT (t : Nat) : DT :=
  let days := t / 86400
  let rem := t % 86400
  let c := civilFromDays days
  ⟨c.1, c.2.1, c.2.2, rem / 3600, (rem % 3600) / 60, rem % 60⟩

/-- Two-digit zero-padded decimal, as strftime `%m`, `%d`, `%H`. -/
def pad2 (n : Nat) : String :=
  if n < 10 then "0" ++ toString n else toString n

/-- Four-digit zero-padded decimal, as strftime `%Y`. -/
def pad4 (n : Nat) : String :=
  if n < 10 then "000" ++ toString n
  else if n < 100 then "00" ++ toString n
  else if n < 1000 then "0" ++ toString n
  else toString n

/-- `timeh.strftime(S3_FMT.format(radar_id, radar_id))` with
`S3_FMT`, which is noaa-nexrad-level2/%Y/%m/%d/ then the radar id twice
with %Y%m%d_%H appended. -/
def fmtS3 (radar_id : String) (t : Nat) : String :=
  let c := secondsToDT t
  "noaa-nexrad-level2/" ++ pad4 c.y ++ "/" ++ pad2 c.m ++ "/" ++ pad2 c.d ++
    "/" ++ radar_id ++ "/" ++ radar_id ++ pad4 c.y ++ pad2 c.m ++ pad2 c.d ++
    "_" ++ pad2 c.h

/-- `pd.date_range(start, end, freq='H')`: hourly steps from `start`
while not past `e`; empty when `start > e`.  Times are seconds. -/
def hourRange (s e : Nat) : List Nat :=
  if s ≤ e then (List.range ((e - s) / 3600 + 1)).map (fun k => s + 3600 * k)
  else []

/-- `get_s3_list(start, end, radar_id)`: one glob per hour step,
results accumulated with `key_list +=` in hour order. -/
def get_s3_list (store : List String) (s e : Nat) (radar_id : String) :
    List String :=
  (hourRange s e).foldl (fun acc t => acc ++ s3Glob store (fmtS3 radar_id t ++ "*")) []

/-! ### Strict timestamp parsing (`pd.to_datetime` with `NEX_FMT`) -/

/-- Strip an expected leading character sequence, or fail. -/
def stripPre : List Char → List Char → Option (List Char)
  | [], s => some s
  | _ :: _, [] => none
  | c :: p, c2 :: s => if c2 = c then stripPre p s else none

/-- Read exactly `n` decimal digits (most significant first),
accumulating into `acc`; fail on a non-digit or early end. -/
def readDigits : Nat → Nat → List Char → Option (Nat × List Char)
  | 0, acc, l => some (acc, l)
  | n + 1, acc, l =>
    match l with
    | [] => none
    | c :: rest =>
      if c.isDigit then readDigits n (acc * 10 + (c.toNat - 48)) rest else none

/-- Gregorian leap year. -/
def isLeap (y : Nat) : Bool :=
  y % 4 == 0 && (y % 100 != 0 || y % 400 == 0)

/-- Days in a month, used to validate a parsed day-of-month. -/
def daysInMonth (y m : Nat) : Nat :=
  if m == 2 then (if isLeap y then 29 else 28)
  else if m == 4 || m == 6 || m == 9 || m == 11 then 30
  else 31

/-- The part of the strict template parse after the date digits:
`_%H%M%S_V06`, end of string, then pandas field validation.  On
success the timestamp carries the supplied `y`, `m`, `d`. -/
def parseTail (y m d : Nat) (r3 : List Char) : Option DT :=
  match stripPre ['_'] r3 with
  | none => none
  | some r4 =>
  match readDigits 2 0 r4 with
  | none => none
  | some (h, r5) =>
  match readDigits 2 0 r5 with
  | none => none
  | some (mi, r6) =>
  match readDigits 2 0 r6 with
  | none => none
  | some (sec, r7) =>
  match stripPre ['_', 'V', '0', '6'] r7 with
  | none => none
  | some r8 =>
  match r8 with
  | [] =>
    if 1 ≤ m ∧ m ≤ 12 ∧ 1 ≤ d ∧ d ≤ daysInMonth y m ∧ h ≤ 23 ∧ mi ≤ 59 ∧ sec ≤ 59
    then some ⟨y, m, d, h, mi, sec⟩ else none
  | _ => none

/-- `pd.to_datetime(name, format=NEX_FMT.format(radar_id))` with
`NEX_FMT` (the station id followed by %Y%m%d_%H%M%S_V06): a strict,
full-string parse.
`none` models the raised `ValueError` on any mismatch. -/
def parseNex (station : String) (s : String) : Option DT :=
  match stripPre station.toList s.toList with
  | none => none
  | some r0 =>
  match readDigits 4 0 r0 with
  | none => none
  | some (y, r1) =>
  match readDigits 2 0 r1 with
  | none => none
  | some (m, r2) =>
  match readDigits 2 0 r2 with
  | none => none
  | some (d, r3) => parseTail y m d r3

/-- Characters of the base filename: everything after the last `/`. -/
def baseRev (l : List Char) : List Char :=
  (l.reverse.takeWhile (fun c => c != '/')).reverse

/-- `os.path.basename` as used on object keys. -/
def basename (s : String) : String :=
  ⟨baseRev s.toList⟩

/-! ### The two time-series builders -/

/-- External collaborators for one run: whether `s3conn.open` on a key
succeeds, and what `pyart.io.read` decodes a key to (`none` = raises). -/
structure Env where
  s3openOk : String → Bool
  readRadar : String → Option Radar

/-- The `(time, range)` table the builders return:
the time, range and ref components of the xarray dataset. -/
structure Dataset where
  time : List DT
  range : List ℚ
  ref : List (List (Option ℚ))
deriving DecidableEq

/-- Building the `xr.Dataset` at the end of either loop, with failures
in source order: `ranges[0]` raises IndexError on an empty list;
`np.vstack(rays)` needs at least one profile, all of one width; xarray
then requires the stacked block to match the `time` and `range` dims. -/
def mkDataset (times : List DT) (rays : List (List (Option ℚ)))
    (ranges : List (List ℚ)) : Except String Dataset :=
  match ranges with
  | [] => .error "IndexError: list index out of range"
  | r0 :: _ =>
    match rays with
    | [] => .error "ValueError: need at least one array to concatenate"
    | ray0 :: rayrest =>
      if rayrest.all (fun r => r.length == ray0.length) then
        if (ray0 :: rayrest).length == times.length then
          if ray0.length == r0.length then .ok ⟨times, r0, ray0 :: rayrest⟩
          else .error "ValueError: conflicting sizes for dimension range"
        else .error "ValueError: conflicting sizes for dimension time"
      else .error "ValueError: all the input array dimensions must match"

/-- The accumulation loop of `get_composite_from_list`: per key, parse
the timestamp from the basename (uncaught on mismatch), decode with
`pyart.io.read` (uncaught), extract the composite (uncaught), append. -/
def locLoop (env : Env) (radar_id field : String) (azimuth : ℚ) :
    List String → List DT → List (List (Option ℚ)) → List (List ℚ) →
    Except String (List DT × List (List (Option ℚ)) × List (List ℚ))
  | [], ts, rs, gs => .ok (ts, rs, gs)
  | filen :: rest, ts, rs, gs =>
    match parseNex radar_id (basename filen) with
    | none => .error "ValueError: time data does not match format"
    | some t =>
      match env.readRadar filen with
      | none => .error "pyart: failed to read archive"
      | some r =>
        match get_composite_field r field azimuth with
        | none => .error "composite extraction failed"
        | some (ray, rng) =>
          locLoop env radar_id field azimuth rest (ts ++ [t]) (rs ++ [ray]) (gs ++ [rng])

/-- `get_composite_from_list(file_list, radar_id, field, azimuth)`. -/
def get_composite_from_list (env : Env) (file_list : List String)
    (radar_id field : String) (azimuth : ℚ) : Except String Dataset :=
  match locLoop env radar_id field azimuth file_list [] [] [] with
  | .error e => .error e
  | .ok (ts, rs, gs) => mkDataset ts rs gs

/-- The accumulation loop of `get_composite_from_s3_list`: the
`s3conn.open` call sits outside the `try`, so its failure raises; the
decode, the timestamp parse (in that order) and the extraction sit
inside the bare `except: pass`, so any of their failures skips the key,
with the timestamp already appended when the extraction fails. -/
def s3Loop (env : Env) (radar_id field : String) (azimuth : ℚ) :
    List String → List DT → List (List (Option ℚ)) → List (List ℚ) →
    Except String (List DT × List (List (Option ℚ)) × List (List ℚ))
  | [], ts, rs, gs => .ok (ts, rs, gs)
  | filen :: rest, ts, rs, gs =>
    if env.s3openOk filen then
      match env.readRadar filen with
      | none => s3Loop env radar_id field azimuth rest ts rs gs
      | some r =>
        match parseNex radar_id (basename filen) with
        | none => s3Loop env radar_id field azimuth rest ts rs gs
        | some t =>
          match get_composite_field r field azimuth with
          | none => s3Loop env radar_id field azimuth rest (ts ++ [t]) rs gs
          | some (ray, rng) =>
            s3Loop env radar_id field azimuth rest (ts ++ [t]) (rs ++ [ray]) (gs ++ [rng])
    else .error "FileNotFoundError"

/-- `get_composite_from_s3_list(file_list, radar_id, field, azimuth)`. -/
def get_composite_from_s3_list (env : Env) (file_list : List String)
    (radar_id field : String) (azimuth : ℚ) : Except String Dataset :=
  match s3Loop env radar_id field azimuth file_list [] [] [] with
  | .error e => .error e
  | .ok (ts, rs, gs) => mkDataset ts rs gs

/-! ### Local file opening (`open_nexrad_file`) -/

/-- A local file: whether it is currently gzip-compressed, and the
radar volume its (decompressed) bytes decode to, `none` when the
library would raise on them. -/
structure LFile where
  gz : Bool
  radar : Option Radar

/-- Point update of a modelled local filesystem. -/
def fsUpdate (fs : String → Option LFile) (n : String) (f : LFile) :
    String → Option LFile :=
  fun x => if x = n then some f else fs x

/-- Modelled from the spec: `try_file_gunzip` is called by
`open_nexrad_file` but is not defined anywhere in the repository
source; the spec says a compressed local file "is transparently
decompressed before opening and recompressed afterward (side effect:
mutates the filesystem in place)".  Returns the (possibly updated)
filesystem, the filename to open, and the `zipped` flag. -/
def try_file_gunzip (fs : String → Option LFile) (filename : String) :
    (String → Option LFile) × String × Bool :=
  match fs filename with
  | some f =>
    if f.gz then (fsUpdate fs filename ⟨false, f.radar⟩, filename, true)
    else (fs, filename, false)
  | none => (fs, filename, false)

/-- Reading a local file through the library (either `radx` or the
native reader): fails on a missing or still-compressed file, otherwise
yields the decoded volume. -/
def readRadarFile (fs : String → Option LFile) (filename : String) : Option Radar :=
  match fs filename with
  | some f => if f.gz then none else f.radar
  | none => none

/-- The gzip shell-out: recompress the named file in place. -/
def gzipFile (fs : String → Option LFile) (filename : String) :
    String → Option LFile :=
  match fs filename with
  | some f => fsUpdate fs filename ⟨true, f.radar⟩
  | none => fs

/-- `open_nexrad_file(filename, io)`: gunzip if needed, read, then
re-gzip only when the read returned (an exception skips the gzip line).
Returns the final filesystem and the read result. -/
def open_nexrad_file (fs : String → Option LFile) (filename : String)
    ( io : String) : (String → Option LFile) × Option Radar :=
  let s := try_file_gunzip fs filename
  match readRadarFile s.1 s.2.1 with
  | none => (s.1, none)
  | some r => (if s.2.2 then gzipFile s.1 s.2.1 else s.1, some r)

/-! ### Helper views used by the theorems -/

/-- Decode a key and extract its composite in one step
(the per-key payload of the loops). -/
def fileComp (env : Env) (field : String) (az : ℚ) (f : String) :
    Option (List (Option ℚ) × List ℚ) :=
  (env.readRadar f).bind (fun r => get_composite_field r field az)

/-- The timestamp a key parses to (defaulted; only used under an
`isSome` hypothesis). -/
def timeOf (radar_id f : String) : DT :=
  (parseNex radar_id (basename f)).getD dtDummy

/-- The composite profile and range axis of a key (defaulted; only
used under a success hypothesis). -/
def compOf (env : Env) (field : String) (az : ℚ) (f : String) :
    List (Option ℚ) × List ℚ :=
  (fileComp env field az f).getD ([], [])

/-- A key the local loop fully succeeds on, with both the profile and
the range axis of length `L`. -/
def LocOKLen (env : Env) (radar_id field : String) (az : ℚ) (L : Nat)
    (f : String) : Prop :=
  (parseNex radar_id (basename f)).isSome ∧
    ∃ p g, fileComp env field az f = some (p, g) ∧ p.length = L ∧ g.length = L

/-- A key the remote loop appends: its decode and its timestamp parse
both succeed. -/
def remPassb (env : Env) (radar_id : String) (f : String) : Bool :=
  (env.readRadar f).isSome && (parseNex radar_id (basename f)).isSome

/-! ### Concrete sample volumes, stores and environments -/

/-- A well-behaved volume: one ray, one bin, value 5. -/
def radar5 : Radar := ⟨fun _ _ => some [[some 5]], [0]⟩

/-- A volume on which the display lookup raises (e.g. the field is
absent), so composite extraction fails. -/
def radarNone : Radar := ⟨fun _ _ => none, [0]⟩

/-- A volume whose single ray holds the boundary values ±1000 and a
clearly saturated 2000. -/
def radar1000 : Radar :=
  ⟨fun _ _ => some [[some 1000, some (-1000), some 2000]], [0, 1, 2]⟩

/-- A volume with one ray and one bin, value 1. -/
def radar1 : Radar := ⟨fun _ _ => some [[some 1]], [0]⟩

/-- A volume whose reflectivity and velocity arrays differ. -/
def radarTwoFields : Radar :=
  ⟨fun f _ => if f = "reflectivity" then some [[some 5]] else some [[some 7]], [0]⟩

/-- Remote environment for the corrupted-middle-file scenario: the
second of three keys fails to decode, the others decode to `radar5`. -/
def env4 : Env :=
  ⟨fun _ => true,
   fun f => if f = "p/KATX20200615_001000_V06" then none
     else if f = "p/KATX20200615_000000_V06" ∨ f = "p/KATX20200615_002000_V06"
     then some radar5 else none⟩

/-- Remote environment where the second key decodes and its name
parses, but its composite extraction fails. -/
def envC3 : Env :=
  ⟨fun _ => true,
   fun f => if f = "q/KATX20200615_010000_V06" then some radar5
     else if f = "q/KATX20200615_020000_V06" then some radarNone else none⟩

/-- Environment where two keys fully succeed and one fails to decode. -/
def envW3 : Env :=
  ⟨fun _ => true,
   fun f => if f = "w/KATX20200615_030000_V06" ∨ f = "w/KATX20200615_040000_V06"
     then some radar5 else none⟩

/-- Environment for the misnamed-key scenario: every key opens and
decodes to `radar5`, whatever its name. -/
def env7 : Env := ⟨fun _ => true, fun _ => some radar5⟩

/-- Environment where every key opens but none decodes. -/
def envAF : Env := ⟨fun _ => true, fun _ => none⟩

/-- A one-file local filesystem: `vol.gz` is compressed and decodes to
`radar1`. -/
def fsW : String → Option LFile :=
  fun n => if n = "vol.gz" then some ⟨true, some radar1⟩ else none

/-! ### Lemmas on the nan-ignoring maximum -/

theorem listNanMax_eq_none (l : List (Option ℚ)) :
    listNanMax l = none ↔ ∀ x ∈ l, x = none := by
  induction l with
  | nil => simp [listNanMax]
  | cons a t ih =>
    simp only [listNanMax, List.foldr_cons] at *
    cases a with
    | none => simpa [maxOpt] using ih
    | some x => cases h : List.foldr maxOpt none t <;> simp [maxOpt, h]

theorem listNanMax_eq_some (l : List (Option ℚ)) (x : ℚ)
    (h : listNanMax l = some x) :
    some x ∈ l ∧ ∀ y : ℚ, some y ∈ l → y ≤ x := by
  induction l generalizing x with
  | nil => simp [listNanMax] at h
  | cons a t ih =>
    simp only [listNanMax, List.foldr_cons] at h
    cases a with
    | none =>
      have h' : listNanMax t = some x := h
      obtain ⟨hm, hb⟩ := ih x h'
      refine ⟨List.mem_cons_of_mem _ hm, ?_⟩
      intro y hy
      rcases List.mem_cons.mp hy with h1 | h1
      · exact absurd h1 (by simp)
      · exact hb y h1
    | some v =>
      cases ht : List.foldr maxOpt none t with
      | none =>
        rw [ht] at h
        have hx : v = x := by simpa [maxOpt] using h
        subst hx
        refine ⟨List.mem_cons_self _ _, ?_⟩
        intro y hy
        rcases List.mem_cons.mp hy with h1 | h1
        · exact le_of_eq (Option.some_injective _ h1)
        · have := (listNanMax_eq_none t).mp ht (some y) h1
          simp at this
      | some w =>
        rw [ht] at h
        have hx : max v w = x := by simpa [maxOpt] using h
        obtain ⟨hm, hb⟩ := ih w ht
        constructor
        · rcases max_choice v w with hc | hc
          · rw [← hx, hc]; exact List.mem_cons_self _ _
          · rw [← hx, hc]; exact List.mem_cons_of_mem _ hm
        · intro y hy
          rcases List.mem_cons.mp hy with h1 | h1
          · have : y = v := Option.some_injective _ h1
            rw [this, ← hx]; exact le_max_left _ _
          · exact le_trans (hb y h1) (le_trans (le_max_right v w) (le_of_eq hx))

theorem mEntry_maskRow (row : List (Option ℚ)) (j : Nat) :
    mEntry (maskRow row) j = (mEntry row j).bind satMask := by
  simp only [mEntry, maskRow, List.getD_eq_getElem?_getD, List.getElem?_map]
  cases row[j]? <;> simp

theorem colVals_mask (m : List (List (Option ℚ))) (j : Nat) :
    colVals (m.map maskRow) j = m.map (fun row => (mEntry row j).bind satMask) := by
  induction m with
  | nil => rfl
  | cons r t ih =>
    simp only [colVals, List.map_cons] at *
    rw [mEntry_maskRow]
    exact congrArg _ ih

theorem satMask_eq_none (v : ℚ) : satMask v = none ↔ 1000 < v ∨ v < -1000 := by
  by_cases h : 1000 < v ∨ v < -1000 <;> simp [satMask, h]

theorem satMask_eq_some (v x : ℚ) :
    satMask v = some x ↔ v = x ∧ ¬(1000 < v ∨ v < -1000) := by
  by_cases h : 1000 < v ∨ v < -1000 <;> simp [satMask, h]

theorem composite_bin (m : List (List (Option ℚ))) (j : Nat) :
    listNanMax (colVals (m.map maskRow) j) =
      listNanMax (m.map (fun row => (mEntry row j).bind satMask)) := by
  rw [colVals_mask]

theorem nanmaxAx0_mask_cons (r0 : List (Option ℚ)) (mrest : List (List (Option ℚ))) :
    nanmaxAx0 ((r0 :: mrest).map maskRow) =
      some ((List.range r0.length).map
        (fun j => listNanMax ((r0 :: mrest).map (fun row => (mEntry row j).bind satMask)))) := by
  have h1 : (r0 :: mrest).map maskRow = maskRow r0 :: mrest.map maskRow := rfl
  rw [h1]
  simp only [nanmaxAx0, Option.some.injEq]
  have h2 : (maskRow r0).length = r0.length := List.length_map _ _
  rw [h2]
  congr 1
  funext j
  rw [← h1, composite_bin]

theorem gcf_some (radar : Radar) (field : String) (az : ℚ)
    (r0 : List (Option ℚ)) (mrest : List (List (Option ℚ)))
    (hm : radar.rhiData "reflectivity" az = some (r0 :: mrest)) :
    get_composite_field radar field az =
      some ((List.range r0.length).map
        (fun j => listNanMax ((r0 :: mrest).map (fun row => (mEntry row j).bind satMask))),
        radar.ranges) := by
  unfold get_composite_field
  rw [hm]
  simp only [nanmaxAx0_mask_cons]

/-! ### Claim C1 -/

/-- C1: the claim states that values with absolute value at least 1000
are replaced by missing before the per-bin maximum.  The source masks
with strict comparisons (`ray > 1000.` / `ray < -1000.`), so a value of
exactly ±1000 is kept: on a volume whose only value in bin 0 is exactly
1000, the composite at bin 0 is `some 1000`, not missing. -/
theorem claim1_counterexample :
    get_composite_field radar1000 "reflectivity" 235 =
      some ([some 1000, some (-1000), none], [0, 1, 2]) ∧
    (some (1000 : ℚ) : Option ℚ) ≠ none := by
  constructor
  · decide
  · simp

/-- C1 (amended): `get_composite_field` replaces every value strictly
greater than 1000 or strictly less than -1000 with missing (values of
exactly ±1000 are kept), then reduces across the ray dimension by the
elementwise maximum ignoring missing values, producing one scalar per
range bin: bin `j` is missing iff every present value in column `j`
is saturated, and otherwise equals the greatest unsaturated present
value of column `j`. -/
theorem claim1_amended (radar : Radar) (field : String) (az : ℚ)
    (m : List (List (Option ℚ))) (comp : List (Option ℚ)) (rngs : List ℚ)
    (hm : radar.rhiData "reflectivity" az = some m)
    (hc : get_composite_field radar field az = some (comp, rngs)) :
    rngs = radar.ranges ∧
    (∃ r0 mrest, m = r0 :: mrest ∧ comp.length = r0.length) ∧
    (∀ j, j < comp.length →
      (comp[j]? = some none ↔
        ∀ row ∈ m, ∀ v : ℚ, mEntry row j = some v → 1000 < v ∨ v < -1000) ∧
      (∀ x : ℚ, comp[j]? = some (some x) →
        (¬(1000 < x ∨ x < -1000)) ∧
        (∃ row ∈ m, mEntry row j = some x) ∧
        (∀ row ∈ m, ∀ v : ℚ, mEntry row j = some v →
          ¬(1000 < v ∨ v < -1000) → v ≤ x))) := by
  rcases m with _ | ⟨r0, mrest⟩
  · unfold get_composite_field at hc
    rw [hm] at hc
    simp [nanmaxAx0] at hc
  · rw [gcf_some radar field az r0 mrest hm] at hc
    simp only [Option.some.injEq, Prod.mk.injEq] at hc
    obtain ⟨hcomp, hrng⟩ := hc
    subst hcomp
    refine ⟨hrng.symm, ⟨r0, mrest, rfl, by simp⟩, ?_⟩
    intro j hj
    have hjr : j < r0.length := by simpa using hj
    have hgj : ((List.range r0.length).map
        (fun j => listNanMax ((r0 :: mrest).map (fun row => (mEntry row j).bind satMask))))[j]? =
        some (listNanMax ((r0 :: mrest).map (fun row => (mEntry row j).bind satMask))) := by
      rw [List.getElem?_map, List.getElem?_range hjr]
      rfl
    rw [hgj]
    constructor
    · simp only [Option.some.injEq]
      rw [listNanMax_eq_none]
      constructor
      · intro hall row hrow v hv
        have hmem := List.mem_map_of_mem (fun row => (mEntry row j).bind satMask) hrow
        have h0 := hall _ hmem
        simp only [hv, Option.some_bind] at h0
        exact (satMask_eq_none v).mp h0
      · intro hall x hx
        obtain ⟨row, hrow, rfl⟩ := List.mem_map.mp hx
        show (mEntry row j).bind satMask = none
        cases hmv : mEntry row j with
        | none => rfl
        | some v =>
          simp only [Option.some_bind]
          exact (satMask_eq_none v).mpr (hall row hrow v hmv)
    · intro x hx
      have hgx : listNanMax ((r0 :: mrest).map (fun row => (mEntry row j).bind satMask)) =
          some x := Option.some_injective _ hx
      obtain ⟨hmem, hbound⟩ := listNanMax_eq_some _ x hgx
      obtain ⟨row, hrow, hrx⟩ := List.mem_map.mp hmem
      obtain ⟨v, hv, hsv⟩ := Option.bind_eq_some.mp hrx
      obtain ⟨hvx, hnsat⟩ := (satMask_eq_some v x).mp hsv
      subst hvx
      refine ⟨hnsat, ⟨row, hrow, hv⟩, ?_⟩
      intro row2 hrow2 w hw hnw
      have hw2 : (mEntry row2 j).bind satMask = some w := by
        rw [hw]
        simp only [Option.some_bind]
        exact (satMask_eq_some w w).mpr ⟨rfl, hnw⟩
      have hmem2 : some w ∈ (r0 :: mrest).map (fun row => (mEntry row j).bind satMask) := by
        rw [← hw2]
        exact List.mem_map_of_mem _ hrow2
      exact hbound w hmem2

/-- C1 witness: the amended theorem instantiated on the concrete
one-ray, one-bin volume `radar1`. -/
theorem claim1_witness :
    radar1.rhiData "reflectivity" 235 = some [[some 1]] ∧
    get_composite_field radar1 "reflectivity" 235 = some ([some 1], [0]) ∧
    (([0] : List ℚ) = radar1.ranges ∧
    (∃ r0 mrest, ([[some 1]] : List (List (Option ℚ))) = r0 :: mrest ∧
      ([some 1] : List (Option ℚ)).length = r0.length) ∧
    (∀ j, j < ([some 1] : List (Option ℚ)).length →
      (([some 1] : List (Option ℚ))[j]? = some none ↔
        ∀ row ∈ ([[some 1]] : List (List (Option ℚ))), ∀ v : ℚ,
          mEntry row j = some v → 1000 < v ∨ v < -1000) ∧
      (∀ x : ℚ, ([some 1] : List (Option ℚ))[j]? = some (some x) →
        (¬(1000 < x ∨ x < -1000)) ∧
        (∃ row ∈ ([[some 1]] : List (List (Option ℚ))), mEntry row j = some x) ∧
        (∀ row ∈ ([[some 1]] : List (List (Option ℚ))), ∀ v : ℚ,
          mEntry row j = some v → ¬(1000 < v ∨ v < -1000) → v ≤ x)))) :=
  ⟨rfl, by decide,
    claim1_amended radar1 "reflectivity" 235 [[some 1]] [some 1] [0] rfl (by decide)⟩

/-! ### Glob semantics -/

theorem globMatch_star (q k : String) :
    globMatch (q ++ "*") k = true ↔
      ∃ t, k.toList = q.toList ++ t ∧ t.contains '/' = false := by
  have h1 : (q ++ "*").toList = q.toList ++ ['*'] := rfl
  unfold globMatch
  simp only [h1, List.getLast?_concat, List.dropLast_concat]
  rw [if_pos trivial, Bool.and_eq_true, Bool.not_eq_true']
  constructor
  · rintro ⟨hpre, hcon⟩
    obtain ⟨t, ht⟩ := ( List.isPrefixOf_iff_prefix).mp hpre
    refine ⟨t, ht.symm, ?_⟩
    rw [← ht, List.drop_left] at hcon
    exact hcon
  · rintro ⟨t, ht, hcon⟩
    refine ⟨( List.isPrefixOf_iff_prefix).mpr ⟨t, ht.symm⟩, ?_⟩
    rw [ht, List.drop_left]
    exact hcon

theorem s3Glob_star_mem (store : List String) (q k : String) :
    k ∈ s3Glob store (q ++ "*") ↔
      k ∈ store ∧ ∃ t, k.toList = q.toList ++ t ∧ t.contains '/' = false := by
  unfold s3Glob
  rw [List.mem_filter]
  exact and_congr_right (fun _ => globMatch_star q k)

/-! ### Claim C5 -/

/-- C5: `get_s3_list_by_str` builds its query string as the
concatenation bucket/year/month/day/station/station+year+month+day,
appends `"_" ++ hhmm` exactly when `hhmm` is supplied, and returns the
store keys matching that query followed by a wildcard: exactly the
keys extending the query by a slash-free suffix. -/
theorem claim5_confirmed (store : List String) (year month day : String)
    (hhmm : Option String) (radar_id bucket : String) :
    (get_s3_list_by_str store year month day hhmm radar_id bucket).2 =
      bucket ++ "/" ++ year ++ "/" ++ month ++ "/" ++ day ++ "/" ++ radar_id ++
        "/" ++ radar_id ++ year ++ month ++ day ++
        (match hhmm with | some h => "_" ++ h | none => "") ∧
    (get_s3_list_by_str store year month day hhmm radar_id bucket).1 =
      s3Glob store
        ((get_s3_list_by_str store year month day hhmm radar_id bucket).2 ++ "*") ∧
    (∀ k, k ∈ (get_s3_list_by_str store year month day hhmm radar_id bucket).1 ↔
      k ∈ store ∧ ∃ t,
        k.toList =
          (get_s3_list_by_str store year month day hhmm radar_id bucket).2.toList ++ t ∧
        t.contains '/' = false) := by
  refine ⟨?_, ?_, ?_⟩
  · cases hhmm <;> simp [get_s3_list_by_str, String.append_assoc]
  · cases hhmm <;> rfl
  · intro k
    cases hhmm <;> exact s3Glob_star_mem store _ k

/-! ### Claim C8 -/

theorem takeWhile_append_stop (p : Char → Bool) (a : List Char) (c : Char)
    (b : List Char) (ha : ∀ x ∈ a, p x = true) (hc : p c = false) :
    (a ++ c :: b).takeWhile p = a := by
  induction a with
  | nil => simp [List.takeWhile_cons, hc]
  | cons x t ih =>
    have hx : p x = true := ha x (List.mem_cons_self _ _)
    simp only [List.cons_append, List.takeWhile_cons, hx, if_true]
    rw [ih (fun y hy => ha y (List.mem_cons_of_mem _ hy))]

theorem basename_concat (a tail suffix : List Char)
    (htail : tail.contains '/' = false) (hsuf : suffix.contains '/' = false) :
    baseRev ((a ++ '/' :: tail) ++ suffix) = tail ++ suffix := by
  unfold baseRev
  have hrev : ((a ++ '/' :: tail) ++ suffix).reverse =
      (suffix.reverse ++ tail.reverse) ++ '/' :: a.reverse := by
    simp [List.reverse_append]
  rw [hrev]
  rw [takeWhile_append_stop _ _ '/' _ ?ha ?hc]
  · rw [List.reverse_append, List.reverse_reverse, List.reverse_reverse]
  case hc => simp
  case ha =>
    intro x hx
    rw [bne_iff_ne]
    intro hxeq
    subst hxeq
    rcases List.mem_append.mp hx with hx1 | hx1
    · have hxs : '/' ∈ suffix := List.mem_reverse.mp hx1
      have h2 : suffix.contains '/' = true := List.elem_eq_true_of_mem hxs
      rw [h2] at hsuf
      exact Bool.noConfusion hsuf
    · have hxs : '/' ∈ tail := List.mem_reverse.mp hx1
      have h2 : tail.contains '/' = true := List.elem_eq_true_of_mem hxs
      rw [h2] at htail
      exact Bool.noConfusion htail

theorem parseTail_fields (y m d : Nat) (r : List Char) (dt : DT)
    (hp : parseTail y m d r = some dt) : dt.y = y ∧ dt.m = m ∧ dt.d = d := by
  unfold parseTail at hp
  repeat' split at hp
  all_goals first
    | exact Option.noConfusion hp
    | (obtain rfl := Option.some_injective _ hp; exact ⟨rfl, rfl, rfl⟩)

theorem parseNex_KATX_day (rest : List Char) :
    parseNex "KATX" ⟨"KATX20200615".toList ++ rest⟩ = parseTail 2020 6 15 rest := rfl

/-- C8: the listing only guarantees the constructed query string as a
key prefix (with a slash-free remainder); the base filename of a
returned key therefore begins with `KATX20200615`, and whenever it
does match the full parse template the parsed timestamp lies within
2020-06-15.  (The full-template match itself is not guaranteed; see
the counterexample.) -/
theorem claim8_amended (store : List String) (k : String)
    (hk : k ∈ (get_s3_list_by_str store "2020" "06" "15" none "KATX"
      "noaa-nexrad-level2").1) :
    "KATX20200615".toList.isPrefixOf (basename k).toList = true ∧
    ∀ t : DT, parseNex "KATX" (basename k) = some t →
      t.y = 2020 ∧ t.m = 6 ∧ t.d = 15 := by
  have h1 : (get_s3_list_by_str store "2020" "06" "15" none "KATX"
      "noaa-nexrad-level2").1 =
      s3Glob store ("noaa-nexrad-level2/2020/06/15/KATX/KATX20200615" ++ "*") := rfl
  rw [h1] at hk
  obtain ⟨hstore, t, hkt, hslash⟩ := (s3Glob_star_mem store _ k).mp hk
  have hql : ("noaa-nexrad-level2/2020/06/15/KATX/KATX20200615" : String).toList =
      "noaa-nexrad-level2/2020/06/15/KATX".toList ++ '/' :: "KATX20200615".toList := rfl
  have hbase : baseRev k.toList = "KATX20200615".toList ++ t := by
    rw [hkt, hql]
    exact basename_concat _ _ _ (by decide) hslash
  have hbs : (basename k).toList = "KATX20200615".toList ++ t := hbase
  constructor
  · rw [hbs]
    exact ( List.isPrefixOf_iff_prefix).mpr ⟨t, rfl⟩
  · intro dt hp
    have hbk : basename k = ⟨"KATX20200615".toList ++ t⟩ := by
      apply String.ext
      exact hbs
    rw [hbk, parseNex_KATX_day] at hp
    exact parseTail_fields 2020 6 15 t dt hp

/-- C8 witness: a conforming key returned by the listing, on which the
amended round-trip properties hold. -/
theorem claim8_witness :
    ("noaa-nexrad-level2/2020/06/15/KATX/KATX20200615_011223_V06" ∈
      (get_s3_list_by_str
        ["noaa-nexrad-level2/2020/06/15/KATX/KATX20200615_011223_V06"]
        "2020" "06" "15" none "KATX" "noaa-nexrad-level2").1) ∧
    ("KATX20200615".toList.isPrefixOf
      (basename "noaa-nexrad-level2/2020/06/15/KATX/KATX20200615_011223_V06").toList
        = true ∧
    ∀ t : DT, parseNex "KATX"
        (basename "noaa-nexrad-level2/2020/06/15/KATX/KATX20200615_011223_V06") =
          some t →
      t.y = 2020 ∧ t.m = 6 ∧ t.d = 15) :=
  ⟨by decide,
    claim8_amended
      ["noaa-nexrad-level2/2020/06/15/KATX/KATX20200615_011223_V06"]
      "noaa-nexrad-level2/2020/06/15/KATX/KATX20200615_011223_V06" (by decide)⟩

/-- C8: the claim as stated is false: the store can hold keys (such as
the `_MDM` marker objects that sit next to real volumes in the NEXRAD
bucket) that match the constructed partition query but not the
filename-parse template, and the listing returns them. -/
theorem claim8_counterexample :
    "noaa-nexrad-level2/2020/06/15/KATX/KATX20200615_MDM" ∈
      (get_s3_list_by_str
        ["noaa-nexrad-level2/2020/06/15/KATX/KATX20200615_MDM"]
        "2020" "06" "15" none "KATX" "noaa-nexrad-level2").1 ∧
    parseNex "KATX"
      (basename "noaa-nexrad-level2/2020/06/15/KATX/KATX20200615_MDM") = none := by
  constructor
  · decide
  · decide

/-! ### Loop lemmas for the two builders -/

theorem locLoop_allOK (env : Env) (radar_id field : String) (az : ℚ) :
    ∀ (l : List String) (ts : List DT) (rs : List (List (Option ℚ)))
      (gs : List (List ℚ)),
    (∀ f ∈ l, (parseNex radar_id (basename f)).isSome ∧
      (fileComp env field az f).isSome) →
    locLoop env radar_id field az l ts rs gs =
      .ok (ts ++ l.map (timeOf radar_id),
           rs ++ l.map (fun f => (compOf env field az f).1),
           gs ++ l.map (fun f => (compOf env field az f).2)) := by
  intro l
  induction l with
  | nil => intro ts rs gs _; simp [locLoop]
  | cons f rest ih =>
    intro ts rs gs hall
    obtain ⟨hp, hcmp⟩ := hall f (List.mem_cons_self _ _)
    obtain ⟨t, ht⟩ := Option.isSome_iff_exists.mp hp
    obtain ⟨pg, hpg⟩ := Option.isSome_iff_exists.mp hcmp
    obtain ⟨r, hr, hg⟩ := Option.bind_eq_some.mp hpg
    obtain ⟨p, g⟩ := pg
    simp only [locLoop, ht, hr, hg]
    rw [ih (ts ++ [t]) (rs ++ [p]) (gs ++ [g])
      (fun f2 hf2 => hall f2 (List.mem_cons_of_mem _ hf2))]
    have h1 : timeOf radar_id f = t := by simp [timeOf, ht]
    have h2 : compOf env field az f = (p, g) := by simp [compOf, fileComp, hr, hg]
    simp [h1, h2]

theorem s3Loop_filter (env : Env) (radar_id field : String) (az : ℚ) :
    ∀ (l : List String) (ts : List DT) (rs : List (List (Option ℚ)))
      (gs : List (List ℚ)),
    (∀ f ∈ l, env.s3openOk f = true) →
    (∀ f ∈ l, (env.readRadar f).isSome → (parseNex radar_id (basename f)).isSome →
      (fileComp env field az f).isSome) →
    s3Loop env radar_id field az l ts rs gs =
      .ok (ts ++ (l.filter (remPassb env radar_id)).map (timeOf radar_id),
           rs ++ (l.filter (remPassb env radar_id)).map
             (fun f => (compOf env field az f).1),
           gs ++ (l.filter (remPassb env radar_id)).map
             (fun f => (compOf env field az f).2)) := by
  intro l
  induction l with
  | nil => intro ts rs gs _ _; simp [s3Loop]
  | cons f rest ih =>
    intro ts rs gs hopen hok
    have ho := hopen f (List.mem_cons_self _ _)
    have ihr := ih ts rs gs (fun f2 hf2 => hopen f2 (List.mem_cons_of_mem _ hf2))
      (fun f2 hf2 => hok f2 (List.mem_cons_of_mem _ hf2))
    cases hr : env.readRadar f with
    | none =>
      have hfil : remPassb env radar_id f = false := by simp [remPassb, hr]
      simp only [s3Loop, ho, if_true, hr]
      rw [ih ts rs gs (fun f2 hf2 => hopen f2 (List.mem_cons_of_mem _ hf2))
        (fun f2 hf2 => hok f2 (List.mem_cons_of_mem _ hf2))]
      simp [List.filter_cons, hfil]
    | some r =>
      cases hp : parseNex radar_id (basename f) with
      | none =>
        have hfil : remPassb env radar_id f = false := by simp [remPassb, hp]
        simp only [s3Loop, ho, if_true, hr, hp]
        rw [ih ts rs gs (fun f2 hf2 => hopen f2 (List.mem_cons_of_mem _ hf2))
          (fun f2 hf2 => hok f2 (List.mem_cons_of_mem _ hf2))]
        simp [List.filter_cons, hfil]
      | some t =>
        have hpass : remPassb env radar_id f = true := by simp [remPassb, hr, hp]
        have hcomp := hok f (List.mem_cons_self _ _) (by simp [hr]) (by simp [hp])
        obtain ⟨pg, hpg⟩ := Option.isSome_iff_exists.mp hcomp
        obtain ⟨r2, hr2, hg⟩ := Option.bind_eq_some.mp hpg
        rw [hr] at hr2
        obtain rfl := Option.some_injective _ hr2
        obtain ⟨p, g⟩ := pg
        simp only [s3Loop, ho, if_true, hr, hp, hg]
        rw [ih (ts ++ [t]) (rs ++ [p]) (gs ++ [g])
          (fun f2 hf2 => hopen f2 (List.mem_cons_of_mem _ hf2))
          (fun f2 hf2 => hok f2 (List.mem_cons_of_mem _ hf2))]
        have h1 : timeOf radar_id f = t := by simp [timeOf, hp]
        have h2 : compOf env field az f = (p, g) := by
          simp [compOf, fileComp, hr, hg]
        simp [List.filter_cons, hpass, h1, h2]

theorem s3Loop_allfail (env : Env) (radar_id field : String) (az : ℚ) :
    ∀ (l : List String) (ts : List DT) (rs : List (List (Option ℚ)))
      (gs : List (List ℚ)),
    (∀ f ∈ l, env.s3openOk f = true ∧ env.readRadar f = none) →
    s3Loop env radar_id field az l ts rs gs = .ok (ts, rs, gs) := by
  intro l
  induction l with
  | nil => intro ts rs gs _; simp [s3Loop]
  | cons f rest ih =>
    intro ts rs gs hall
    obtain ⟨ho, hr⟩ := hall f (List.mem_cons_self _ _)
    simp only [s3Loop, ho, if_true, hr]
    exact ih ts rs gs (fun f2 hf2 => hall f2 (List.mem_cons_of_mem _ hf2))

theorem mkDataset_ok (times : List DT) (ray0 : List (Option ℚ))
    (rayrest : List (List (Option ℚ))) (r0 : List ℚ) (grest : List (List ℚ))
    (L : Nat) (hlen : ∀ r ∈ ray0 :: rayrest, r.length = L) (hr0 : r0.length = L)
    (hcount : (ray0 :: rayrest).length = times.length) :
    mkDataset times (ray0 :: rayrest) (r0 :: grest) = .ok ⟨times, r0, ray0 :: rayrest⟩ := by
  show (if rayrest.all (fun r => r.length == ray0.length) then
      if (ray0 :: rayrest).length == times.length then
        if ray0.length == r0.length then
          (.ok ⟨times, r0, ray0 :: rayrest⟩ : Except String Dataset)
        else .error "ValueError: conflicting sizes for dimension range"
      else .error "ValueError: conflicting sizes for dimension time"
    else .error "ValueError: all the input array dimensions must match") =
    .ok ⟨times, r0, ray0 :: rayrest⟩
  have c1 : rayrest.all (fun r => r.length == ray0.length) = true := by
    rw [List.all_eq_true]
    intro r hr
    have e1 := hlen r (List.mem_cons_of_mem _ hr)
    have e0 := hlen ray0 (List.mem_cons_self _ _)
    simp [e1, e0]
  rw [if_pos c1, if_pos (by simp [hcount]),
    if_pos (by simp [hlen ray0 (List.mem_cons_self _ _), hr0])]

/-! ### Claim C3 -/

/-- C3: as stated the claim is false.  In the remote variant the
timestamp is appended before the composite extraction, so a key that
decodes and parses but fails extraction leaves one more time entry
than profile rows; the builder then fails with a dimension mismatch
instead of returning the claimed table with one entry per non-failing
file.  Here key 2 decodes and parses but its extraction fails: one
file fails, one succeeds, yet no 1-row table is returned. -/
theorem claim3_counterexample :
    get_composite_from_s3_list envC3
      ["q/KATX20200615_010000_V06", "q/KATX20200615_020000_V06"]
      "KATX" "reflectivity" 235 =
      .error "ValueError: conflicting sizes for dimension time" := by
  decide

/-- C3 (amended): (local) for N ≥ 1 keys that all parse, decode and
extract with a common profile/range width L, the local builder returns
a table with exactly N time entries in key-list order, N profile rows,
and the range axis of the first key (of length L) as the shared axis.
(Remote) when every key opens, and every key that decodes and parses
also extracts (with width L), and at least one key passes, the remote
builder returns a table whose time entries and profile rows both count
exactly the keys that decode and parse, in key-list order; a key that
fails extraction after its timestamp was appended is excluded by the
hypotheses, since it desynchronizes the two sequences. -/
theorem claim3_amended :
    (∀ (env : Env) (f0 : String) (rest : List String) (radar_id field : String)
      (az : ℚ) (L : Nat),
      (∀ f ∈ f0 :: rest, LocOKLen env radar_id field az L f) →
      get_composite_from_list env (f0 :: rest) radar_id field az =
        .ok ⟨(f0 :: rest).map (timeOf radar_id),
             (compOf env field az f0).2,
             (f0 :: rest).map (fun f => (compOf env field az f).1)⟩ ∧
      ((f0 :: rest).map (timeOf radar_id)).length = (f0 :: rest).length ∧
      (compOf env field az f0).2.length = L) ∧
    (∀ (env : Env) (l : List String) (radar_id field : String) (az : ℚ) (L : Nat),
      (∀ f ∈ l, env.s3openOk f = true) →
      (∀ f ∈ l, (env.readRadar f).isSome → (parseNex radar_id (basename f)).isSome →
        ∃ p g, fileComp env field az f = some (p, g) ∧ p.length = L ∧ g.length = L) →
      (∃ f ∈ l, remPassb env radar_id f = true) →
      ∃ ds, get_composite_from_s3_list env l radar_id field az = .ok ds ∧
        ds.time = (l.filter (remPassb env radar_id)).map (timeOf radar_id) ∧
        ds.time.length = l.countP (remPassb env radar_id) ∧
        ds.ref = (l.filter (remPassb env radar_id)).map
          (fun f => (compOf env field az f).1) ∧
        ds.ref.length = l.countP (remPassb env radar_id) ∧
        ds.range.length = L) := by
  constructor
  · intro env f0 rest radar_id field az L hall
    have hall' : ∀ f ∈ f0 :: rest,
        (parseNex radar_id (basename f)).isSome ∧ (fileComp env field az f).isSome := by
      intro f hf
      obtain ⟨h1, p, g, h2, _, _⟩ := hall f hf
      exact ⟨h1, by simp [h2]⟩
    have hc1 : ∀ f ∈ f0 :: rest, (compOf env field az f).1.length = L := by
      intro f hf
      obtain ⟨_, p, g, h2, hpl, _⟩ := hall f hf
      simp [compOf, h2, hpl]
    have hc2 : ∀ f ∈ f0 :: rest, (compOf env field az f).2.length = L := by
      intro f hf
      obtain ⟨_, p, g, h2, _, hgl⟩ := hall f hf
      simp [compOf, h2, hgl]
    refine ⟨?_, by simp, hc2 f0 (List.mem_cons_self _ _)⟩
    unfold get_composite_from_list
    rw [locLoop_allOK env radar_id field az (f0 :: rest) [] [] [] hall']
    simp only [List.nil_append, List.map_cons]
    apply mkDataset_ok _ _ _ _ _ L
    · intro r hr
      rcases List.mem_cons.mp hr with h | h
      · rw [h]; exact hc1 f0 (List.mem_cons_self _ _)
      · obtain ⟨f, hf, hfr⟩ := List.mem_map.mp h
        rw [← hfr]; exact hc1 f (List.mem_cons_of_mem _ hf)
    · exact hc2 f0 (List.mem_cons_self _ _)
    · simp
  · intro env l radar_id field az L hopen hok hex
    have hok' : ∀ f ∈ l, (env.readRadar f).isSome →
        (parseNex radar_id (basename f)).isSome → (fileComp env field az f).isSome := by
      intro f hf h1 h2
      obtain ⟨p, g, h3, _, _⟩ := hok f hf h1 h2
      simp [h3]
    have hmemg : ∀ f ∈ l.filter (remPassb env radar_id),
        (compOf env field az f).1.length = L ∧ (compOf env field az f).2.length = L := by
      intro f hf
      obtain ⟨hfl, hfp⟩ := List.mem_filter.mp hf
      have hab := hfp
      simp only [remPassb, Bool.and_eq_true] at hab
      obtain ⟨p, g, h3, hpl, hgl⟩ := hok f hfl hab.1 hab.2
      constructor <;> simp [compOf, h3, hpl, hgl]
    obtain ⟨f1, hf1mem, hf1pass⟩ := hex
    have hf1fil : f1 ∈ l.filter (remPassb env radar_id) :=
      List.mem_filter.mpr ⟨hf1mem, hf1pass⟩
    obtain ⟨g1, grest, hgeq⟩ := List.exists_cons_of_ne_nil (List.ne_nil_of_mem hf1fil)
    refine ⟨⟨(l.filter (remPassb env radar_id)).map (timeOf radar_id),
             (compOf env field az g1).2,
             (l.filter (remPassb env radar_id)).map
               (fun f => (compOf env field az f).1)⟩,
           ?_, rfl, ?_, rfl, ?_, ?_⟩
    · unfold get_composite_from_s3_list
      rw [s3Loop_filter env radar_id field az l [] [] [] hopen hok']
      simp only [List.nil_append]
      rw [hgeq]
      simp only [List.map_cons]
      apply mkDataset_ok _ _ _ _ _ L
      · intro r hr
        rcases List.mem_cons.mp hr with h | h
        · rw [h]; exact (hmemg g1 (hgeq ▸ List.mem_cons_self _ _)).1
        · obtain ⟨f, hf, hfr⟩ := List.mem_map.mp h
          rw [← hfr]
          exact (hmemg f (hgeq ▸ List.mem_cons_of_mem _ hf)).1
      · exact (hmemg g1 (hgeq ▸ List.mem_cons_self _ _)).2
      · simp
    · simp [List.countP_eq_length_filter]
    · simp [List.countP_eq_length_filter]
    · exact (hmemg g1 (hgeq ▸ List.mem_cons_self _ _)).2

/-- C3 witness: the amended theorem instantiated on a 2-key all-good
local run over `envW3` and a 3-key remote run over `env4` whose middle
key fails to decode. -/
theorem claim3_witness :
    ((∀ f ∈ ["w/KATX20200615_030000_V06", "w/KATX20200615_040000_V06"],
        LocOKLen envW3 "KATX" "reflectivity" 235 1 f) ∧
      get_composite_from_list envW3
          ["w/KATX20200615_030000_V06", "w/KATX20200615_040000_V06"]
          "KATX" "reflectivity" 235 =
        .ok ⟨(["w/KATX20200615_030000_V06", "w/KATX20200615_040000_V06"]).map
               (timeOf "KATX"),
             (compOf envW3 "reflectivity" 235 "w/KATX20200615_030000_V06").2,
             (["w/KATX20200615_030000_V06", "w/KATX20200615_040000_V06"]).map
               (fun f => (compOf envW3 "reflectivity" 235 f).1)⟩ ∧
      ((["w/KATX20200615_030000_V06", "w/KATX20200615_040000_V06"]).map
          (timeOf "KATX")).length =
        (["w/KATX20200615_030000_V06", "w/KATX20200615_040000_V06"] : List String).length ∧
      (compOf envW3 "reflectivity" 235 "w/KATX20200615_030000_V06").2.length = 1) ∧
    (∃ ds, get_composite_from_s3_list env4
        ["p/KATX20200615_000000_V06", "p/KATX20200615_001000_V06",
         "p/KATX20200615_002000_V06"] "KATX" "reflectivity" 235 = .ok ds ∧
      ds.time = ((["p/KATX20200615_000000_V06", "p/KATX20200615_001000_V06",
          "p/KATX20200615_002000_V06"]).filter (remPassb env4 "KATX")).map
          (timeOf "KATX") ∧
      ds.time.length = (["p/KATX20200615_000000_V06", "p/KATX20200615_001000_V06",
          "p/KATX20200615_002000_V06"]).countP (remPassb env4 "KATX") ∧
      ds.ref = ((["p/KATX20200615_000000_V06", "p/KATX20200615_001000_V06",
          "p/KATX20200615_002000_V06"]).filter (remPassb env4 "KATX")).map
          (fun f => (compOf env4 "reflectivity" 235 f).1) ∧
      ds.ref.length = (["p/KATX20200615_000000_V06", "p/KATX20200615_001000_V06",
          "p/KATX20200615_002000_V06"]).countP (remPassb env4 "KATX") ∧
      ds.range.length = 1) := by
  constructor
  · have hall : ∀ f ∈ ["w/KATX20200615_030000_V06", "w/KATX20200615_040000_V06"],
        LocOKLen envW3 "KATX" "reflectivity" 235 1 f := by
      intro f hf
      simp only [List.mem_cons, List.not_mem_nil, or_false] at hf
      rcases hf with rfl | rfl
      · exact ⟨by decide, [some 5], [0], by decide, by decide, by decide⟩
      · exact ⟨by decide, [some 5], [0], by decide, by decide, by decide⟩
    exact ⟨hall, claim3_amended.1 envW3 "w/KATX20200615_030000_V06"
      ["w/KATX20200615_040000_V06"] "KATX" "reflectivity" 235 1 hall⟩
  · refine claim3_amended.2 env4
      ["p/KATX20200615_000000_V06", "p/KATX20200615_001000_V06",
       "p/KATX20200615_002000_V06"] "KATX" "reflectivity" 235 1
      (fun f _ => rfl) ?_ ⟨"p/KATX20200615_000000_V06", by simp, by decide⟩
    intro f hf
    simp only [List.mem_cons, List.not_mem_nil, or_false] at hf
    rcases hf with rfl | rfl | rfl
    · intro _ _; exact ⟨[some 5], [0], by decide, by decide, by decide⟩
    · intro h1 _; exact absurd h1 (by decide)
    · intro _ _; exact ⟨[some 5], [0], by decide, by decide, by decide⟩

/-! ### Claim C4 -/

/-- C4: on three remote keys whose second fails to decode, the remote
builder silently skips the bad file and returns the 2-row table built
from keys 1 and 3, while the local builder on the same keys raises at
the second file and returns no table. -/
theorem claim4_confirmed :
    get_composite_from_s3_list env4
      ["p/KATX20200615_000000_V06", "p/KATX20200615_001000_V06",
       "p/KATX20200615_002000_V06"] "KATX" "reflectivity" 235 =
      .ok ⟨[⟨2020, 6, 15, 0, 0, 0⟩, ⟨2020, 6, 15, 0, 20, 0⟩], [0],
           [[some 5], [some 5]]⟩ ∧
    get_composite_from_list env4
      ["p/KATX20200615_000000_V06", "p/KATX20200615_001000_V06",
       "p/KATX20200615_002000_V06"] "KATX" "reflectivity" 235 =
      .error "pyart: failed to read archive" := by
  constructor
  · decide
  · decide

/-! ### Claim C7 -/

/-- C7: the claim states a filename-parse mismatch is fatal in both
builders.  It is not: in the remote builder the parse sits inside the
bare `except`, so a misnamed key is silently skipped — three keys with
a misnamed second one still give a 2-row table and no error. -/
theorem claim7_counterexample :
    get_composite_from_s3_list env7
      ["g/KATX20200615_050000_V06", "g/NOTANEXRADNAME",
       "g/KATX20200615_060000_V06"] "KATX" "reflectivity" 235 =
      .ok ⟨[⟨2020, 6, 15, 5, 0, 0⟩, ⟨2020, 6, 15, 6, 0, 0⟩], [0],
           [[some 5], [some 5]]⟩ := by
  decide

/-- C7 (amended): a filename that does not match the station template
is fatal in the local builder (the run aborts with the parse error as
soon as the offending key is reached), but in the remote builder the
parse failure is caught by the blanket handler and the key is silently
skipped: the run behaves as if the key were absent. -/
theorem claim7_amended :
    (∀ (env : Env) (radar_id field : String) (az : ℚ) (fbad : String)
      (rest : List String),
      parseNex radar_id (basename fbad) = none →
      get_composite_from_list env (fbad :: rest) radar_id field az =
        .error "ValueError: time data does not match format") ∧
    (∀ (env : Env) (radar_id field : String) (az : ℚ) (fbad : String)
      (rest : List String),
      env.s3openOk fbad = true →
      parseNex radar_id (basename fbad) = none →
      get_composite_from_s3_list env (fbad :: rest) radar_id field az =
        get_composite_from_s3_list env rest radar_id field az) := by
  constructor
  · intro env radar_id field az fbad rest hp
    unfold get_composite_from_list
    simp only [locLoop, hp]
  · intro env radar_id field az fbad rest ho hp
    unfold get_composite_from_s3_list
    cases hr : env.readRadar fbad <;> simp only [s3Loop, ho, if_true, hr, hp]

/-- C7 witness: a key with a non-template basename aborts the local
builder and is skipped by the remote builder. -/
theorem claim7_witness :
    parseNex "KATX" (basename "g/BADNAME") = none ∧
    env7.s3openOk "g/BADNAME" = true ∧
    get_composite_from_list env7 ["g/BADNAME", "g/KATX20200615_050000_V06"]
        "KATX" "reflectivity" 235 =
      .error "ValueError: time data does not match format" ∧
    get_composite_from_s3_list env7 ["g/BADNAME", "g/KATX20200615_050000_V06"]
        "KATX" "reflectivity" 235 =
      get_composite_from_s3_list env7 ["g/KATX20200615_050000_V06"]
        "KATX" "reflectivity" 235 :=
  ⟨by decide, rfl,
   claim7_amended.1 env7 "KATX" "reflectivity" 235 "g/BADNAME"
     ["g/KATX20200615_050000_V06"] (by decide),
   claim7_amended.2 env7 "KATX" "reflectivity" 235 "g/BADNAME"
     ["g/KATX20200615_050000_V06"] rfl (by decide)⟩

/-! ### Claim C10 -/

/-- C10: with an empty key list, or in the remote builder when every
key opens but fails to decode (so all are skipped), no empty table is
returned: `ranges[0]` raises IndexError, aborting the run. -/
theorem claim10_confirmed :
    (∀ (env : Env) (radar_id field : String) (az : ℚ),
      get_composite_from_list env [] radar_id field az =
        .error "IndexError: list index out of range") ∧
    (∀ (env : Env) (radar_id field : String) (az : ℚ),
      get_composite_from_s3_list env [] radar_id field az =
        .error "IndexError: list index out of range") ∧
    (∀ (env : Env) (l : List String) (radar_id field : String) (az : ℚ),
      (∀ f ∈ l, env.s3openOk f = true ∧ env.readRadar f = none) →
      get_composite_from_s3_list env l radar_id field az =
        .error "IndexError: list index out of range") := by
  refine ⟨fun env radar_id field az => rfl, fun env radar_id field az => rfl, ?_⟩
  intro env l radar_id field az hall
  unfold get_composite_from_s3_list
  rw [s3Loop_allfail env radar_id field az l [] [] [] hall]
  rfl

/-- C10 witness: one remote key that opens but fails to decode; the
remote builder raises the IndexError rather than returning a table. -/
theorem claim10_witness :
    (∀ f ∈ ["x/KATX20200615_000000_V06"],
      envAF.s3openOk f = true ∧ envAF.readRadar f = none) ∧
    get_composite_from_s3_list envAF ["x/KATX20200615_000000_V06"]
        "KATX" "reflectivity" 235 =
      .error "IndexError: list index out of range" :=
  ⟨fun f _ => ⟨rfl, rfl⟩,
   claim10_confirmed.2.2 envAF ["x/KATX20200615_000000_V06"]
     "KATX" "reflectivity" 235 (fun f _ => ⟨rfl, rfl⟩)⟩

/-! ### Claim C6 -/

theorem foldl_glob_append (g : Nat → List String) :
    ∀ (l : List Nat) (acc : List String),
    l.foldl (fun a t => a ++ g t) acc = acc ++ (l.map g).flatten := by
  intro l
  induction l with
  | nil => intro acc; simp
  | cons t rest ih =>
    intro acc
    simp only [List.foldl_cons, List.map_cons, List.flatten_cons]
    rw [ih, List.append_assoc]

/-- C6: for start ≤ end the ranged listing enumerates exactly
`(end - start) / 3600 + 1` hour steps — one backend query per step —
each query string being the fixed partitioning template formatted at
that hour with a trailing wildcard, and the result is the
concatenation of the per-hour query results in increasing hour
order. -/
theorem claim6_confirmed (store : List String) (s e : Nat) (radar_id : String)
    (h : s ≤ e) :
    (hourRange s e).length = (e - s) / 3600 + 1 ∧
    hourRange s e = (List.range ((e - s) / 3600 + 1)).map (fun k => s + 3600 * k) ∧
    List.Pairwise (· < ·) (hourRange s e) ∧
    get_s3_list store s e radar_id =
      ((hourRange s e).map (fun t => s3Glob store (fmtS3 radar_id t ++ "*"))).flatten := by
  have hr : hourRange s e =
      (List.range ((e - s) / 3600 + 1)).map (fun k => s + 3600 * k) := by
    simp [hourRange, h]
  refine ⟨by rw [hr]; simp, hr, ?_, ?_⟩
  · rw [hr, List.pairwise_map]
    apply List.Pairwise.imp ?_ (List.pairwise_lt_range ((e - s) / 3600 + 1))
    intro a b hab
    omega
  · unfold get_s3_list
    rw [foldl_glob_append (fun t => s3Glob store (fmtS3 radar_id t ++ "*"))
      (hourRange s e) []]
    simp

/-- C6 witness: a 2-hour window starting at 2020-06-15 00:30:00 UTC
makes exactly three hourly queries, 00:30, 01:30 and 02:30, formatted
into hours 00, 01 and 02 of the partition template. -/
theorem claim6_witness :
    1592181000 ≤ 1592188200 ∧
    ((hourRange 1592181000 1592188200).length =
        (1592188200 - 1592181000) / 3600 + 1 ∧
      hourRange 1592181000 1592188200 =
        (List.range ((1592188200 - 1592181000) / 3600 + 1)).map
          (fun k => 1592181000 + 3600 * k) ∧
      List.Pairwise (· < ·) (hourRange 1592181000 1592188200) ∧
      get_s3_list ["noaa-nexrad-level2/2020/06/15/KATX/KATX20200615_001122_V06"]
          1592181000 1592188200 "KATX" =
        ((hourRange 1592181000 1592188200).map
          (fun t => s3Glob
            ["noaa-nexrad-level2/2020/06/15/KATX/KATX20200615_001122_V06"]
            (fmtS3 "KATX" t ++ "*"))).flatten) :=
  ⟨by decide,
   claim6_confirmed ["noaa-nexrad-level2/2020/06/15/KATX/KATX20200615_001122_V06"]
     1592181000 1592188200 "KATX" (by decide)⟩

/-! ### Claim C9 -/

/-- C9: opening a compressed local file that decodes cleanly succeeds
(the decompression happens before the library read) and leaves the
filesystem exactly as it was: the in-place gunzip is undone by the
recompression after the read.  (Relies on the spec-modelled
`try_file_gunzip`, which is absent from the source.) -/
theorem claim9_confirmed (fs : String → Option LFile) (filename io : String)
    (f : LFile) (r : Radar) (hf : fs filename = some f) (hgz : f.gz = true)
    (hrad : f.radar = some r) :
    open_nexrad_file fs filename io = (fs, some r) := by
  obtain ⟨gz, rad⟩ := f
  change gz = true at hgz
  change rad = some r at hrad
  subst hgz
  subst hrad
  have hstep : try_file_gunzip fs filename =
      (fsUpdate fs filename ⟨false, some r⟩, filename, true) := by
    unfold try_file_gunzip
    simp [hf]
  have hread : readRadarFile (fsUpdate fs filename ⟨false, some r⟩) filename =
      some r := by
    unfold readRadarFile fsUpdate
    simp
  have hgzip : gzipFile (fsUpdate fs filename ⟨false, some r⟩) filename = fs := by
    have h1 : fsUpdate fs filename ⟨false, some r⟩ filename =
        some ⟨false, some r⟩ := by
      unfold fsUpdate
      simp
    unfold gzipFile
    simp only [h1]
    funext x
    unfold fsUpdate
    by_cases hx : x = filename
    · rw [if_pos hx, hx, hf]
    · rw [if_neg hx, if_neg hx]
  unfold open_nexrad_file
  rw [hstep]
  simp only [hread, hgzip, if_true]

/-- C9 witness: the claim instantiated on the one-file filesystem
`fsW`, whose compressed `vol.gz` decodes to `radar1`. -/
theorem claim9_witness :
    fsW "vol.gz" = some ⟨true, some radar1⟩ ∧
    open_nexrad_file fsW "vol.gz" "radx" = (fsW, some radar1) :=
  ⟨rfl, claim9_confirmed fsW "vol.gz" "radx" ⟨true, some radar1⟩ radar1 rfl rfl rfl⟩

/-! ### Claim C2 -/

/-- C2: the claim says the composite is extracted for the field named
by the `field` argument.  The source instead passes the literal
"reflectivity" to the display call, so the `field` argument is
ignored: the result is identical for any two field names, and on a
volume whose velocity data differs from its reflectivity data,
requesting `"velocity"` still yields the reflectivity composite. -/
theorem claim2_code_bug :
    (∀ (radar : Radar) (f1 f2 : String) (az : ℚ),
      get_composite_field radar f1 az = get_composite_field radar f2 az) ∧
    get_composite_field radarTwoFields "velocity" 235 = some ([some 5], [0]) ∧
    radarTwoFields.rhiData "velocity" 235 = some [[some 7]] := by
  refine ⟨fun radar f1 f2 az => rfl, by decide, by decide⟩

end Nexrad
